import Mathlib

/-
Verification development for the unimib_moodle_scraper repository.

The Python sources (unimib_scraper/cli.py, unimib_scraper/browser_session.py)
are shallowly embedded below.  Python strings are modelled as lists of
code points (`PyStr`), so that single-character `str.replace` calls become
pointwise maps, exactly as in CPython.  The platform test
`sys.platform == "win32"` is modelled as an explicit boolean parameter.
-/

namespace UnimibScraper

/-- Python strings, as lists of Unicode code points. -/
abbrev PyStr := List Char

/-- Coercion from a Lean string literal to the Python string model. -/
def str (s : String) : PyStr := s.toList

/-- Embeds cli.py WIN_FORBIDDEN_FILENAMES (lines 60 to 85): the fixed list of
reserved Windows device basenames, exactly as written in the source. -/
def WIN_FORBIDDEN_FILENAMES : List PyStr :=
  [str "CON", str "PRN", str "AUX", str "NUL",
   str "COM1", str "COM2", str "COM3", str "COM4", str "COM5",
   str "COM6", str "COM7", str "COM8", str "COM9", str "COM0",
   str "LPT1", str "LPT2", str "LPT3", str "LPT4", str "LPT5",
   str "LPT6", str "LPT7", str "LPT8", str "LPT9", str "LPT0"]

/-- Embeds cli.py WIN_FORBIDDEN_FILENAME_CHARMAP (lines 87 to 96): the fixed
association list mapping each reserved Windows punctuation character to its
Unicode look-alike, in source order. -/
def WIN_FORBIDDEN_FILENAME_CHARMAP : List (Char × Char) :=
  [('\\', '∖'), (':', '∶'), ('*', '∗'), ('?', '？'),
   ('"', '＂'), ('<', '＜'), ('>', '＞'), ('|', '∣')]

/-- The keys of the character map: the reserved punctuation characters. -/
def winForbiddenChars : List Char := WIN_FORBIDDEN_FILENAME_CHARMAP.map Prod.fst

/-- The values of the character map: the Unicode look-alike replacements. -/
def winReplacementChars : List Char := WIN_FORBIDDEN_FILENAME_CHARMAP.map Prod.snd

/-- Python `name.replace(old, new)` for a single-character pattern: a
pointwise map over the code points. -/
def replaceChar (old new : Char) (s : PyStr) : PyStr :=
  s.map fun c => if c = old then new else c

/-- The loop over WIN_FORBIDDEN_FILENAME_CHARMAP.items() in cli.py lines
116 to 117: successive single-character replaces, folded in map order. -/
def applyCharmap (m : List (Char × Char)) (s : PyStr) : PyStr :=
  m.foldl (fun acc p => replaceChar p.1 p.2 acc) s

/-- Embeds cli.py escape_path_name (lines 111 to 118).  The `win32` flag
models `sys.platform == "win32"`.  First the path separator is replaced by
the fraction slash, then on win32 an exact member of the reserved-name list
is prefixed with an underscore and the reserved punctuation characters are
replaced through the character map. -/
def escape_path_name (win32 : Bool) (name : PyStr) : PyStr :=
  let n := replaceChar '/' '⁄' name
  if win32 then
    let n2 := if n ∈ WIN_FORBIDDEN_FILENAMES then '_' :: n else n
    applyCharmap WIN_FORBIDDEN_FILENAME_CHARMAP n2
  else n

/-- Embeds cli.py escape_path (lines 121 to 122): segmentwise escaping. -/
def escape_path (win32 : Bool) (path : List PyStr) : List PyStr :=
  path.map (escape_path_name win32)

/-- The action of the character-map loop on one code point. -/
def charmapApply (m : List (Char × Char)) (c : Char) : Char :=
  m.foldl (fun a p => if a = p.1 then p.2 else a) c

/-- Python substring membership `pat in s`: true when pat occurs
contiguously in s. -/
def containsSubstr (s pat : PyStr) : Bool :=
  match s with
  | [] => pat.isPrefixOf []
  | c :: rest => pat.isPrefixOf (c :: rest) || containsSubstr rest pat

/-- Python `s.replace(pat, repl)` for a non-empty pattern: leftmost,
non-overlapping occurrences are replaced, scanning left to right. -/
def replaceSubstr (pat repl s : PyStr) : PyStr :=
  match s with
  | [] => []
  | c :: rest =>
      if pat.isPrefixOf (c :: rest) ∧ pat ≠ [] then
        repl ++ replaceSubstr pat repl (rest.drop (pat.length - 1))
      else
        c :: replaceSubstr pat repl rest
termination_by s.length
decreasing_by
  · simp only [List.length_cons, List.length_drop]
    omega
  · simp only [List.length_cons]
    omega

/-- The fixed URL fragment tested by Scraper.fix_download_plugin_url. -/
def plugin_pattern : PyStr := str "/webservice/pluginfile.php"

/-- Embeds Scraper.fix_download_plugin_url (cli.py lines 270 to 279): the
identity on URLs without the webservice fragment; otherwise the fragment is
replaced by the token-in-path form carrying the private access key and
"&offline=1" is appended. -/
def fix_download_plugin_url (accessKey : PyStr) (url : PyStr) : PyStr :=
  if containsSubstr url plugin_pattern = false then url
  else
    replaceSubstr plugin_pattern (str "/tokenpluginfile.php/" ++ accessKey) url
      ++ str "&offline=1"

/-- One entry of a resource module `contents` array, as consumed by
Scraper.download_resources: the keys type, filename, fileurl, filesize. -/
structure Content where
  type : PyStr
  filename : PyStr
  fileurl : PyStr
  filesize : Nat
deriving DecidableEq

/-- The content tree passed to Scraper.scrape_course: either a JSON array or
a JSON object, of which the walk reads id, name, modules (optional), modname
(optional), contents (optional) and url. -/
inductive CTree where
  | obj (id : Int) (name : PyStr) (modules : Option (List CTree))
        (modname : Option PyStr) (contents : Option (List Content)) (url : PyStr)
  | arr (items : List CTree)

/-- Observable effects of one walk of the content tree, in program order.
`submit` is the only deferred unit of work (cli.py line 347,
`self.pool.submit(self._do_download, file, fileurl)`); every other effect is
performed synchronously by the walking thread itself.  In particular
`saveVideo` stands for the body of Scraper.save_kaltura_video_url after its
cache check (cli.py lines 361 to 384): a synchronous page fetch, entry-id
extraction and videos-JSON rewrite executed during the walk, which downloads
nothing and submits nothing. -/
inductive Eff where
  | submit (dest : List PyStr) (url : PyStr)
  | skipExisting (dest : List PyStr)
  | skipEmptyModule (path : List PyStr)
  | skipNonFile (path : List PyStr) (filename : PyStr)
  | saveVideo (dest : List PyStr) (pageUrl : PyStr) (name : PyStr)
  | unknownModule (path : List PyStr) (modname : PyStr)
deriving DecidableEq

/-- The ambient Scraper state read by the walk: destination directory,
platform flag, the private access key from site_info, the sizes of files
already on disk (none when absent), and the keys already present in the
persisted videos map. -/
structure Ctx where
  destdir : PyStr
  win32 : Bool
  accessKey : PyStr
  fsSize : List PyStr → Option Nat
  videos : List (List PyStr)

/-- Embeds cli.py IGNORED_MODULES (lines 47 to 58). -/
def IGNORED_MODULES : List PyStr :=
  [str "assign", str "choice", str "choicegroup", str "feedback", str "forum",
   str "label", str "quiz", str "page", str "customcert", str "scorm"]

/-- Embeds Scraper.download_resources (cli.py lines 305 to 351).  A module
without a contents key is skipped whole.  When the contents array has more
than one entry — of any kind — the path is extended with the module name
before the loop.  Each file entry either matches an on-disk file of the
declared size (skipped) or is submitted to the worker pool; non-file
entries are logged and skipped. -/
def download_resources (ctx : Ctx) (path : List PyStr) (name : PyStr)
    (contents : Option (List Content)) : List Eff :=
  match contents with
  | none => [.skipEmptyModule path]
  | some cs =>
      let path2 := if cs.length > 1 then path ++ [name] else path
      cs.flatMap fun c =>
        if c.type ≠ str "file" then [.skipNonFile path2 c.filename]
        else
          let dest := ctx.destdir :: escape_path ctx.win32 (path2 ++ [c.filename])
          if ctx.fsSize dest = some c.filesize then [.skipExisting dest]
          else [.submit dest (fix_download_plugin_url ctx.accessKey c.fileurl)]

/-- Embeds Scraper.save_kaltura_video_url (cli.py lines 353 to 384) at the
granularity of the walk: the destination key is the escaped path extended
with the module name plus ".mp4"; when that key is already in the videos
map the call returns at once, otherwise the resolution-and-record body runs
synchronously (the saveVideo effect).  No download task is produced in
either case. -/
def save_kaltura_video_url (ctx : Ctx) (path : List PyStr) (name url : PyStr) :
    List Eff :=
  let dest := ctx.destdir :: escape_path ctx.win32 (path ++ [name ++ str ".mp4"])
  if dest ∈ ctx.videos then []
  else [.saveVideo dest url name]

mutual

/-- Embeds Scraper.scrape_course (cli.py lines 386 to 412).  A list is
walked item by item with the same path.  An object with a modules key
recurses into the modules; the recursion path is `path ++ [name]` when
`id != -1 and name` holds and the literal empty list otherwise, exactly as
the conditional expression on line 397 evaluates.  An object with a modname
key then dispatches on the module type. -/
def scrape_course (ctx : Ctx) (path : List PyStr) : CTree → List Eff
  | .arr items => scrape_list ctx path items
  | .obj i name modules modname contents url =>
      (match modules with
       | some mods =>
           scrape_list ctx (if i ≠ -1 ∧ name ≠ [] then path ++ [name] else []) mods
       | none => []) ++
      (match modname with
       | none => []
       | some mn =>
           if mn ∈ IGNORED_MODULES then []
           else if mn = str "resource" then download_resources ctx path name contents
           else if mn = str "kalvidres" then save_kaltura_video_url ctx path name url
           else [.unknownModule path mn])

/-- The loop over a JSON array inside Scraper.scrape_course (lines 388
to 393). -/
def scrape_list (ctx : Ctx) (path : List PyStr) : List CTree → List Eff
  | [] => []
  | t :: ts => scrape_course ctx path t ++ scrape_list ctx path ts

end

/-- True exactly on the deferred download-task effect. -/
def isSubmitEff : Eff → Bool
  | .submit _ _ => true
  | _ => false

/-- A concrete scraper context used by the closed evaluation theorems:
destination directory "dest", non-win32 platform, access key "KEY", an
empty destination directory on disk and an empty videos map. -/
def defaultCtx : Ctx :=
  ⟨str "dest", false, str "KEY", fun _ => none, []⟩

/-- Terminal outcome of one Scraper._do_download call. -/
inductive DlOutcome where
  | skipped
  | completed
  | failed
deriving DecidableEq

/-- Observable result of one Scraper._do_download call: the outcome, the
size of the file present at the destination afterwards (none when no file
exists there), and the number of body bytes read from the stream. -/
structure DlResult where
  outcome : DlOutcome
  file : Option Nat
  bytesRead : Nat
deriving DecidableEq

/-- Embeds Scraper._do_download (cli.py lines 281 to 303).  Inputs model
the world the call runs against: `existing` is the size of a file already
at the destination (none when absent), `getFails` makes the initial
streaming GET itself raise, `contentLength` is the Content-Length header
(absent headers read as 0, line 290), `chunks` are the body chunk sizes
iter_content would yield, and `failAt = some k` raises an exception after k
chunks have been written.  Every exception path runs the except clause on
lines 301 to 303: the destination file is unlinked (missing_ok) and the
error re-raised, so a failure always leaves no file.  The skip branch on
lines 292 to 294 returns before any body read when the existing size
equals the declared length.  Otherwise open(file, "wb") truncates and the
chunks are streamed. -/
def do_download (existing : Option Nat) (getFails : Bool)
    (contentLength : Option Nat) (chunks : List Nat) (failAt : Option Nat) :
    DlResult :=
  if getFails then ⟨.failed, none, 0⟩
  else
    let length := contentLength.getD 0
    if existing = some length then ⟨.skipped, existing, 0⟩
    else
      match failAt with
      | some k => ⟨.failed, none, ((chunks.take k).foldl (· + ·) 0)⟩
      | none => ⟨.completed, some (chunks.foldl (· + ·) 0), chunks.foldl (· + ·) 0⟩

/-- Events in the life of the worker pool semaphore (cli.py lines 135 to
155).  `submit` models WorkerPool.submit acquiring the counting semaphore
before dispatch (line 151).  `complete b` models a unit of work finishing
with success flag b: ThreadPool.apply_async was given _on_complete as its
success callback and no error callback (line 152), so the release on line
155 runs only when the unit returned normally. -/
inductive PoolEvent where
  | submit
  | complete (success : Bool)

/-- One semaphore transition per pool event. -/
def poolStep (sem : Nat) : PoolEvent → Nat
  | .submit => sem - 1
  | .complete true => sem + 1
  | .complete false => sem

/-- The semaphore value after a sequence of pool events, starting from the
capacity the pool was constructed with (line 138). -/
def poolRun (capacity : Nat) (evs : List PoolEvent) : Nat :=
  evs.foldl poolStep capacity

/-- Python `cli or os.environ[NAME]` (cli.py lines 418 to 419): a truthy
command-line value wins, otherwise the environment variable is looked up
and a missing variable raises KeyError (the error case). -/
def credOr (cli : Option PyStr) (env : Option PyStr) : Except Unit PyStr :=
  match cli with
  | some s => if s = [] then (match env with
      | some v => .ok v
      | none => .error ()) else .ok s
  | none => match env with
      | some v => .ok v
      | none => .error ()

/-- Embeds main (cli.py lines 415 to 440) together with the package entry
point, which is not under src/.  Modelled from the spec: the missing entry
point runs main() and the process exits 0 when main returns normally and
non-zero when an exception propagates out of it (standard Python
console-script semantics).  Inside main, the try block reads the username
and then the password through credOr; a KeyError prints a message and
returns normally (lines 420 to 422), after which the process exits 0.
With both credentials available the run proceeds; `runRaises` models an
exception propagating from login, tree acquisition or scraping, and
`anyTaskFailed` models individual download tasks failing inside the worker
pool — their exceptions are captured in the never-inspected AsyncResult of
apply_async (line 152) and so never reach main, which is why the exit code
does not depend on it. -/
def mainExitCode (cliUser envUser cliPass envPass : Option PyStr)
    (runRaises : Bool) (_anyTaskFailed : Bool) : Nat :=
  match credOr cliUser envUser with
  | .error _ => 0
  | .ok _ =>
      match credOr cliPass envPass with
      | .error _ => 0
      | .ok _ => if runRaises then 1 else 0


theorem applyCharmap_eq_map (m : List (Char × Char)) (s : PyStr) :
    applyCharmap m s = s.map (charmapApply m) := by
  induction m generalizing s with
  | nil =>
      have : charmapApply ([] : List (Char × Char)) = fun c => c := rfl
      simp [applyCharmap, this]
  | cons p m ih =>
      have h1 : applyCharmap (p :: m) s = applyCharmap m (replaceChar p.1 p.2 s) := rfl
      rw [h1, ih, replaceChar, List.map_map]
      congr 1

theorem charmapApply_of_not_forbidden (c : Char)
    (h : c ∉ winForbiddenChars) :
    charmapApply WIN_FORBIDDEN_FILENAME_CHARMAP c = c := by
  simp only [winForbiddenChars, WIN_FORBIDDEN_FILENAME_CHARMAP, List.map_cons,
    List.map_nil, List.mem_cons, List.not_mem_nil, or_false, not_or] at h
  obtain ⟨h1, h2, h3, h4, h5, h6, h7, h8⟩ := h
  simp [charmapApply, WIN_FORBIDDEN_FILENAME_CHARMAP, h1, h2, h3, h4, h5, h6, h7, h8]

/-- Each code point is either untouched by the character map (when it is not
a reserved character) or sent to one of the eight look-alikes. -/
theorem charmapApply_spec (c : Char) :
    (c ∉ winForbiddenChars ∧ charmapApply WIN_FORBIDDEN_FILENAME_CHARMAP c = c) ∨
    (c ∈ winForbiddenChars ∧
      charmapApply WIN_FORBIDDEN_FILENAME_CHARMAP c ∈ winReplacementChars) := by
  by_cases h : c ∈ winForbiddenChars
  · right
    refine ⟨h, ?_⟩
    simp only [winForbiddenChars, WIN_FORBIDDEN_FILENAME_CHARMAP, List.map_cons,
      List.map_nil, List.mem_cons, List.not_mem_nil, or_false] at h
    rcases h with rfl | rfl | rfl | rfl | rfl | rfl | rfl | rfl <;> decide
  · left
    exact ⟨h, charmapApply_of_not_forbidden c h⟩

theorem charmapApply_replacement_fixed (c : Char)
    (h : c ∈ winReplacementChars) :
    charmapApply WIN_FORBIDDEN_FILENAME_CHARMAP c = c := by
  apply charmapApply_of_not_forbidden
  intro hk
  simp only [winReplacementChars, winForbiddenChars, WIN_FORBIDDEN_FILENAME_CHARMAP,
    List.map_cons, List.map_nil, List.mem_cons, List.not_mem_nil, or_false] at h hk
  rcases h with rfl | rfl | rfl | rfl | rfl | rfl | rfl | rfl <;> simp_all

theorem charmapApply_idem (c : Char) :
    charmapApply WIN_FORBIDDEN_FILENAME_CHARMAP
      (charmapApply WIN_FORBIDDEN_FILENAME_CHARMAP c) =
    charmapApply WIN_FORBIDDEN_FILENAME_CHARMAP c := by
  rcases charmapApply_spec c with ⟨-, h⟩ | ⟨-, h⟩
  · rw [h, h]
  · exact charmapApply_replacement_fixed _ h

theorem sep_not_mem_replaceChar (s : PyStr) :
    '/' ∉ replaceChar '/' '⁄' s := by
  simp only [replaceChar, List.mem_map, not_exists]
  rintro c ⟨-, hc⟩
  by_cases h : c = '/' <;> simp [h] at hc

theorem replaceChar_eq_self (old new : Char) (s : PyStr)
    (h : old ∉ s) : replaceChar old new s = s := by
  induction s with
  | nil => rfl
  | cons c cs ih =>
      simp only [List.mem_cons, not_or] at h
      have hc : ¬ c = old := fun e => h.1 e.symm
      calc replaceChar old new (c :: cs)
          = (if c = old then new else c) :: replaceChar old new cs := rfl
        _ = c :: cs := by rw [if_neg hc, ih h.2]

theorem sep_not_mem_escape (win32 : Bool) (n : PyStr) :
    '/' ∉ escape_path_name win32 n := by
  cases win32 with
  | false => simpa [escape_path_name] using sep_not_mem_replaceChar n
  | true =>
      intro hmem
      have h1 : '/' ∉ replaceChar '/' '⁄' n := sep_not_mem_replaceChar n
      simp only [escape_path_name, if_true] at hmem
      rw [applyCharmap_eq_map] at hmem
      rcases List.mem_map.mp hmem with ⟨x, hx, hgx⟩
      have hx' : x ≠ '/' := by
        split at hx
        · rcases List.mem_cons.mp hx with rfl | hx2
          · decide
          · exact fun e => h1 (e ▸ hx2)
        · exact fun e => h1 (e ▸ hx)
      rcases charmapApply_spec x with ⟨-, he⟩ | ⟨-, he⟩
      · rw [he] at hgx
        exact hx' hgx
      · rw [hgx] at he
        revert he
        decide

theorem map_charmap_eq_of_no_replacement (l w : PyStr)
    (hw : ∀ d ∈ w, d ∉ winReplacementChars)
    (h : l.map (charmapApply WIN_FORBIDDEN_FILENAME_CHARMAP) = w) : l = w := by
  induction l generalizing w with
  | nil =>
      simp only [List.map_nil] at h
      exact h
  | cons a l ih =>
      cases w with
      | nil => simp at h
      | cons b w2 =>
          simp only [List.map_cons, List.cons.injEq] at h
          obtain ⟨hab, hlw⟩ := h
          have hb : b ∉ winReplacementChars := hw b (List.mem_cons_self b w2)
          have ha : a = b := by
            rcases charmapApply_spec a with ⟨-, he⟩ | ⟨-, he⟩
            · rw [he] at hab
              exact hab
            · rw [hab] at he
              exact absurd he hb
          rw [ha, ih w2 (fun d hd => hw d (List.mem_cons_of_mem b hd)) hlw]

theorem escape_true_not_forbidden (n : PyStr) :
    escape_path_name true n ∉ WIN_FORBIDDEN_FILENAMES := by
  intro hF
  simp only [escape_path_name, if_true] at hF
  rw [applyCharmap_eq_map] at hF
  by_cases hf : replaceChar '/' '⁄' n ∈ WIN_FORBIDDEN_FILENAMES
  · rw [if_pos hf] at hF
    have hu : charmapApply WIN_FORBIDDEN_FILENAME_CHARMAP '_' = '_' := by decide
    have hhead : ∀ w ∈ WIN_FORBIDDEN_FILENAMES, w.head? ≠ some '_' := by decide
    have := hhead _ hF
    simp [hu] at this
  · rw [if_neg hf] at hF
    have hnl : ∀ w ∈ WIN_FORBIDDEN_FILENAMES, ∀ d ∈ w, d ∉ winReplacementChars := by
      decide
    have heq := map_charmap_eq_of_no_replacement (replaceChar '/' '⁄' n) _
      (hnl _ hF) rfl
    rw [← heq] at hF
    exact hf hF

theorem escape_true_no_forbidden_chars (n : PyStr) (c : Char)
    (h : c ∈ escape_path_name true n) : c ∉ winForbiddenChars := by
  simp only [escape_path_name, if_true] at h
  rw [applyCharmap_eq_map] at h
  rcases List.mem_map.mp h with ⟨x, -, hgx⟩
  rcases charmapApply_spec x with ⟨hx, he⟩ | ⟨-, he⟩
  · rw [he] at hgx
    exact hgx ▸ hx
  · rw [hgx] at he
    intro hc
    have hdisj : ∀ d ∈ winReplacementChars, d ∉ winForbiddenChars := by decide
    exact hdisj c he hc

theorem map_map_idem (g : Char → Char) (h : ∀ c, g (g c) = g c) (s : List Char) :
    (s.map g).map g = s.map g := by
  induction s with
  | nil => rfl
  | cons c cs ih =>
      calc (List.map g (c :: cs)).map g
          = g (g c) :: (cs.map g).map g := rfl
        _ = g c :: cs.map g := by rw [h c, ih]

theorem applyCharmap_idem (s : PyStr) :
    applyCharmap WIN_FORBIDDEN_FILENAME_CHARMAP
      (applyCharmap WIN_FORBIDDEN_FILENAME_CHARMAP s) =
    applyCharmap WIN_FORBIDDEN_FILENAME_CHARMAP s :=
  calc applyCharmap WIN_FORBIDDEN_FILENAME_CHARMAP
        (applyCharmap WIN_FORBIDDEN_FILENAME_CHARMAP s)
      = (applyCharmap WIN_FORBIDDEN_FILENAME_CHARMAP s).map
          (charmapApply WIN_FORBIDDEN_FILENAME_CHARMAP) :=
        applyCharmap_eq_map _ _
    _ = ((s.map (charmapApply WIN_FORBIDDEN_FILENAME_CHARMAP)).map
          (charmapApply WIN_FORBIDDEN_FILENAME_CHARMAP)) :=
        congrArg (fun l => l.map (charmapApply WIN_FORBIDDEN_FILENAME_CHARMAP))
          (applyCharmap_eq_map _ _)
    _ = s.map (charmapApply WIN_FORBIDDEN_FILENAME_CHARMAP) :=
        map_map_idem _ charmapApply_idem s
    _ = applyCharmap WIN_FORBIDDEN_FILENAME_CHARMAP s :=
        (applyCharmap_eq_map _ _).symm

theorem escape_path_name_idem (win32 : Bool) (n : PyStr) :
    escape_path_name win32 (escape_path_name win32 n) = escape_path_name win32 n := by
  cases win32 with
  | false =>
      simp only [escape_path_name, Bool.false_eq_true, if_false]
      exact replaceChar_eq_self _ _ _ (sep_not_mem_replaceChar n)
  | true =>
      have hsep : '/' ∉ escape_path_name true n := sep_not_mem_escape true n
      have hnf : escape_path_name true n ∉ WIN_FORBIDDEN_FILENAMES :=
        escape_true_not_forbidden n
      have h1 : replaceChar '/' '⁄' (escape_path_name true n) = escape_path_name true n :=
        replaceChar_eq_self _ _ _ hsep
      have h2 : escape_path_name true n =
          applyCharmap WIN_FORBIDDEN_FILENAME_CHARMAP
            (if replaceChar '/' '⁄' n ∈ WIN_FORBIDDEN_FILENAMES
             then '_' :: replaceChar '/' '⁄' n
             else replaceChar '/' '⁄' n) := rfl
      calc escape_path_name true (escape_path_name true n)
          = applyCharmap WIN_FORBIDDEN_FILENAME_CHARMAP
              (if replaceChar '/' '⁄' (escape_path_name true n) ∈ WIN_FORBIDDEN_FILENAMES
               then '_' :: replaceChar '/' '⁄' (escape_path_name true n)
               else replaceChar '/' '⁄' (escape_path_name true n)) := rfl
        _ = applyCharmap WIN_FORBIDDEN_FILENAME_CHARMAP
              (if escape_path_name true n ∈ WIN_FORBIDDEN_FILENAMES
               then '_' :: escape_path_name true n
               else escape_path_name true n) := by rw [h1]
        _ = applyCharmap WIN_FORBIDDEN_FILENAME_CHARMAP (escape_path_name true n) := by
              rw [if_neg hnf]
        _ = applyCharmap WIN_FORBIDDEN_FILENAME_CHARMAP
              (applyCharmap WIN_FORBIDDEN_FILENAME_CHARMAP
                (if replaceChar '/' '⁄' n ∈ WIN_FORBIDDEN_FILENAMES
                 then '_' :: replaceChar '/' '⁄' n
                 else replaceChar '/' '⁄' n)) :=
              congrArg (applyCharmap WIN_FORBIDDEN_FILENAME_CHARMAP) h2
        _ = applyCharmap WIN_FORBIDDEN_FILENAME_CHARMAP
              (if replaceChar '/' '⁄' n ∈ WIN_FORBIDDEN_FILENAMES
               then '_' :: replaceChar '/' '⁄' n
               else replaceChar '/' '⁄' n) := applyCharmap_idem _
        _ = escape_path_name true n := h2.symm

/-- C4: the path escaper is idempotent.  For every platform profile and every
sequence of path segments p, escape_path (escape_path p) = escape_path p, and
for every single segment, escaping twice equals escaping once. -/
theorem c4_escape_path_idempotent :
    (∀ (win32 : Bool) (p : List PyStr),
        escape_path win32 (escape_path win32 p) = escape_path win32 p) ∧
    (∀ (win32 : Bool) (name : PyStr),
        escape_path_name win32 (escape_path_name win32 name) =
          escape_path_name win32 name) := by
  refine ⟨?_, escape_path_name_idem⟩
  intro w p
  simp only [escape_path, List.map_map]
  exact List.map_congr_left fun n _ => escape_path_name_idem w n

/-- C5 counterexample: the reserved-basename check in escape_path_name
(cli.py line 114) is an exact, case-sensitive list membership test, so the
lowercase input "con" — which matches the reserved device name "CON"
case-insensitively — is returned unchanged on the win32 profile: it is not
prefixed with an underscore, and the output still equals a reserved
basename up to case. -/
theorem c5_case_insensitive_counterexample :
    escape_path_name true (str "con") = str "con" ∧
    (str "con").map Char.toUpper ∈ WIN_FORBIDDEN_FILENAMES ∧
    (escape_path_name true (str "con")).head? ≠ some '_' ∧
    (escape_path_name true (str "con")).map Char.toUpper ∈ WIN_FORBIDDEN_FILENAMES := by
  decide

/-- C5 (amended): for every input segment the escaped output never contains
the path separator; the reserved-character map is one-to-one (its eight
replacement characters are pairwise distinct look-alikes); on the win32
profile every basename that exactly (case-sensitively) equals one of the 24
reserved device names is prefixed with an underscore; and the win32 output
never contains a reserved punctuation character and never exactly equals a
reserved basename.  (The claim said the reserved-name match is
case-insensitive; the code compares case-sensitively, see the
counterexample.) -/
theorem c5_escape_safety :
    (∀ (win32 : Bool) (n : PyStr), '/' ∉ escape_path_name win32 n) ∧
    winReplacementChars.Nodup ∧
    (∀ n ∈ WIN_FORBIDDEN_FILENAMES, escape_path_name true n = '_' :: n) ∧
    (∀ (n : PyStr) (c : Char), c ∈ escape_path_name true n → c ∉ winForbiddenChars) ∧
    (∀ n : PyStr, escape_path_name true n ∉ WIN_FORBIDDEN_FILENAMES) := by
  refine ⟨sep_not_mem_escape, by decide, by decide,
    escape_true_no_forbidden_chars, escape_true_not_forbidden⟩

/-- Witness for c5_escape_safety at concrete inputs. -/
theorem c5_escape_safety_witness :
    '/' ∉ escape_path_name true (str "a/b") ∧
    escape_path_name true (str "CON") = '_' :: str "CON" ∧
    '∶' ∉ winForbiddenChars ∧
    escape_path_name true (str "NUL") ∉ WIN_FORBIDDEN_FILENAMES :=
  ⟨c5_escape_safety.1 true (str "a/b"),
   c5_escape_safety.2.2.1 (str "CON") (by decide),
   c5_escape_safety.2.2.2.1 (str "a:b") '∶' (by decide),
   c5_escape_safety.2.2.2.2 (str "NUL")⟩

/-- C1: evaluation at the failing input.  A node with id = -1 (and empty
name) that has children is walked with the literal empty path, not with
the accumulated path: starting from the accumulated path ["Course"], the
task emitted under the synthetic node has destination ["dest", "a.pdf"],
and not ["dest", "Course", "a.pdf"] as preservation of the previously
accumulated segments would give (cli.py line 397, else branch of the
conditional expression). -/
theorem c1_transparent_node_discards_path :
    scrape_course defaultCtx [str "Course"]
        (.obj (-1) []
          (some [.obj 7 (str "Mod") none (some (str "resource"))
            (some [⟨str "file", str "a.pdf", str "http://x", 5⟩]) []])
          none none []) =
      [.submit [str "dest", str "a.pdf"] (str "http://x")] ∧
    scrape_course defaultCtx [str "Course"]
        (.obj (-1) []
          (some [.obj 7 (str "Mod") none (some (str "resource"))
            (some [⟨str "file", str "a.pdf", str "http://x", 5⟩]) []])
          none none []) ≠
      [.submit [str "dest", str "Course", str "a.pdf"] (str "http://x")] := by
  decide

/-- C2: evaluation at the failing input.  With capacity 1, a submitted unit
that completes successfully restores the semaphore to 1, but a unit that
raises leaves it at 0: apply_async runs the registered callback
_on_complete only on success, and no error callback is registered, so the
permit of a failing unit is never released and capacity leaks. -/
theorem c2_pool_leaks_permit_on_failure :
    poolRun 1 [.submit, .complete true] = 1 ∧
    poolRun 1 [.submit, .complete false] = 0 ∧
    poolRun 1 [.submit, .complete false] ≠ 1 := by
  decide

/-- C3 counterexample: a kalvidres module emits no download task at all.
The walk of one kalvidres module performs the page resolution synchronously
(a walk-time saveVideo effect) and submits zero units of work to the pool,
so no direct video URL is ever handed to the streaming download step. -/
theorem c3_no_video_download_task :
    scrape_course defaultCtx [str "Course"]
        (.obj 9 (str "Lecture") none (some (str "kalvidres")) none (str "http://p")) =
      [.saveVideo [str "dest", str "Course", str "Lecture.mp4"] (str "http://p")
        (str "Lecture")] ∧
    (scrape_course defaultCtx [str "Course"]
        (.obj 9 (str "Lecture") none (some (str "kalvidres")) none
          (str "http://p"))).countP isSubmitEff = 0 := by
  decide

theorem scrape_course_module (ctx : Ctx) (path : List PyStr) (i : Int)
    (name : PyStr) (mn : PyStr) (contents : Option (List Content)) (url : PyStr) :
    scrape_course ctx path (.obj i name none (some mn) contents url) =
      (if mn ∈ IGNORED_MODULES then []
       else if mn = str "resource" then download_resources ctx path name contents
       else if mn = str "kalvidres" then save_kaltura_video_url ctx path name url
       else [.unknownModule path mn]) := by
  simp [scrape_course]

/-- C3 (amended): for every kalvidres module the walk submits no download
task; when the destination key is not yet in the videos map the walk
performs the resolution-and-record step itself, synchronously, as its only
effect, and when the key is already present the walk does nothing.  The
destination key is the escaped path extended with the module name plus the
fixed ".mp4" extension.  The video file itself is never transferred. -/
theorem c3_kalvidres_resolved_during_walk (ctx : Ctx) (path : List PyStr)
    (i : Int) (name url : PyStr) :
    (∀ d u, Eff.submit d u ∉
        scrape_course ctx path (.obj i name none (some (str "kalvidres")) none url)) ∧
    (ctx.destdir :: escape_path ctx.win32 (path ++ [name ++ str ".mp4"]) ∉ ctx.videos →
      scrape_course ctx path (.obj i name none (some (str "kalvidres")) none url) =
        [.saveVideo (ctx.destdir :: escape_path ctx.win32 (path ++ [name ++ str ".mp4"]))
          url name]) ∧
    (ctx.destdir :: escape_path ctx.win32 (path ++ [name ++ str ".mp4"]) ∈ ctx.videos →
      scrape_course ctx path (.obj i name none (some (str "kalvidres")) none url) = []) := by
  have hred : scrape_course ctx path (.obj i name none (some (str "kalvidres")) none url)
      = save_kaltura_video_url ctx path name url := by
    rw [scrape_course_module, if_neg (by decide), if_neg (by decide), if_pos rfl]
  refine ⟨?_, ?_, ?_⟩
  · intro d u hmem
    rw [hred] at hmem
    simp only [save_kaltura_video_url] at hmem
    split at hmem
    · simp at hmem
    · simp at hmem
  · intro hnot
    rw [hred]
    simp only [save_kaltura_video_url]
    rw [if_neg hnot]
  · intro hin
    rw [hred]
    simp only [save_kaltura_video_url]
    rw [if_pos hin]

/-- Witness for c3_kalvidres_resolved_during_walk at concrete inputs, in
both the fresh-key and the cached-key case. -/
theorem c3_kalvidres_resolved_during_walk_witness :
    (Eff.submit [str "d"] (str "u") ∉
      scrape_course defaultCtx [] (.obj 1 (str "V") none (some (str "kalvidres")) none
        (str "p"))) ∧
    scrape_course defaultCtx [] (.obj 1 (str "V") none (some (str "kalvidres")) none
        (str "p")) =
      [.saveVideo (defaultCtx.destdir ::
          escape_path defaultCtx.win32 ([] ++ [str "V" ++ str ".mp4"]))
        (str "p") (str "V")] ∧
    scrape_course ⟨str "dest", false, str "KEY", fun _ => none,
        [[str "dest", str "V.mp4"]]⟩ []
      (.obj 1 (str "V") none (some (str "kalvidres")) none (str "p")) = [] :=
  ⟨(c3_kalvidres_resolved_during_walk defaultCtx [] 1 (str "V") (str "p")).1
      [str "d"] (str "u"),
   (c3_kalvidres_resolved_during_walk defaultCtx [] 1 (str "V") (str "p")).2.1
      (by decide),
   (c3_kalvidres_resolved_during_walk
      ⟨str "dest", false, str "KEY", fun _ => none, [[str "dest", str "V.mp4"]]⟩
      [] 1 (str "V") (str "p")).2.2 (by decide)⟩

/-- C6 counterexample: the subdirectory decision counts all content
entries, not downloaded files.  A resource module whose contents hold one
non-file entry and exactly one file entry yields exactly one downloaded
file, yet its task is nested under the module subdirectory
(dest/Course/Mod/a.pdf) and not placed directly under the parent path
(dest/Course/a.pdf) as the claim requires for a module yielding exactly
one file. -/
theorem c6_single_file_nested_counterexample :
    (([⟨str "url", str "link", str "u", 0⟩,
       ⟨str "file", str "a.pdf", str "u2", 5⟩] : List Content).countP
        (fun c => c.type == str "file") = 1) ∧
    scrape_course defaultCtx [str "Course"]
        (.obj 3 (str "Mod") none (some (str "resource"))
          (some [⟨str "url", str "link", str "u", 0⟩,
                 ⟨str "file", str "a.pdf", str "u2", 5⟩]) []) =
      [.skipNonFile [str "Course", str "Mod"] (str "link"),
       .submit [str "dest", str "Course", str "Mod", str "a.pdf"] (str "u2")] ∧
    Eff.submit [str "dest", str "Course", str "a.pdf"] (str "u2") ∉
      scrape_course defaultCtx [str "Course"]
        (.obj 3 (str "Mod") none (some (str "resource"))
          (some [⟨str "url", str "link", str "u", 0⟩,
                 ⟨str "file", str "a.pdf", str "u2", 5⟩]) []) := by
  decide

/-- C6 (amended): for every resource module, every emitted task comes from
a file-kind entry and its destination is the parent path extended with the
module name and then the filename when the contents array has more than
one entry — of any kind — and the parent path plus the filename otherwise;
conversely every file-kind entry whose destination does not already match
on disk is submitted.  Non-file entries never produce a task.  (The claim
counted downloaded files; the code counts all content entries, see the
counterexample.) -/
theorem c6_resource_destination_paths (ctx : Ctx) (path : List PyStr) (i : Int)
    (name url : PyStr) (cs : List Content) :
    (∀ d u, Eff.submit d u ∈
        scrape_course ctx path (.obj i name none (some (str "resource")) (some cs) url) →
      ∃ c ∈ cs, c.type = str "file" ∧
        d = ctx.destdir :: escape_path ctx.win32
              ((if cs.length > 1 then path ++ [name] else path) ++ [c.filename]) ∧
        u = fix_download_plugin_url ctx.accessKey c.fileurl) ∧
    (∀ c ∈ cs, c.type = str "file" →
      ctx.fsSize (ctx.destdir :: escape_path ctx.win32
          ((if cs.length > 1 then path ++ [name] else path) ++ [c.filename])) ≠
        some c.filesize →
      Eff.submit (ctx.destdir :: escape_path ctx.win32
          ((if cs.length > 1 then path ++ [name] else path) ++ [c.filename]))
        (fix_download_plugin_url ctx.accessKey c.fileurl) ∈
        scrape_course ctx path (.obj i name none (some (str "resource")) (some cs) url)) := by
  have hred : scrape_course ctx path (.obj i name none (some (str "resource")) (some cs) url)
      = download_resources ctx path name (some cs) := by
    rw [scrape_course_module, if_neg (by decide), if_pos rfl]
  constructor
  · intro d u hmem
    rw [hred] at hmem
    simp only [download_resources] at hmem
    rcases List.mem_flatMap.mp hmem with ⟨c, hc, hin⟩
    refine ⟨c, hc, ?_⟩
    by_cases ht : c.type = str "file"
    · rw [if_neg (by simp [ht])] at hin
      by_cases hs : ctx.fsSize (ctx.destdir :: escape_path ctx.win32
          ((if cs.length > 1 then path ++ [name] else path) ++ [c.filename])) =
          some c.filesize
      · rw [if_pos hs] at hin
        simp at hin
      · rw [if_neg hs] at hin
        simp only [List.mem_singleton, Eff.submit.injEq] at hin
        exact ⟨ht, hin.1, hin.2⟩
    · rw [if_pos ht] at hin
      simp at hin
  · intro c hc ht hs
    rw [hred]
    simp only [download_resources]
    refine List.mem_flatMap.mpr ⟨c, hc, ?_⟩
    rw [if_neg (by simp [ht]), if_neg hs]
    exact List.mem_singleton.mpr rfl

/-- Witness for c6_resource_destination_paths: a two-entry module nests its
file task under the module name; a one-entry module places it directly
under the parent. -/
theorem c6_resource_destination_paths_witness :
    (∃ c ∈ ([⟨str "file", str "a.pdf", str "u", 1⟩,
             ⟨str "file", str "b.pdf", str "u", 2⟩] : List Content),
      c.type = str "file" ∧
      [str "dest", str "Course", str "Mod", str "a.pdf"] =
        defaultCtx.destdir :: escape_path defaultCtx.win32
          ((if ([⟨str "file", str "a.pdf", str "u", 1⟩,
                 ⟨str "file", str "b.pdf", str "u", 2⟩] : List Content).length > 1
            then [str "Course"] ++ [str "Mod"] else [str "Course"]) ++ [c.filename]) ∧
      str "u" = fix_download_plugin_url defaultCtx.accessKey c.fileurl) ∧
    Eff.submit (defaultCtx.destdir :: escape_path defaultCtx.win32
        ((if ([⟨str "file", str "c.pdf", str "u", 3⟩] : List Content).length > 1
          then [str "Course"] ++ [str "Mod"] else [str "Course"]) ++ [str "c.pdf"]))
      (fix_download_plugin_url defaultCtx.accessKey (str "u")) ∈
      scrape_course defaultCtx [str "Course"]
        (.obj 4 (str "Mod") none (some (str "resource"))
          (some [⟨str "file", str "c.pdf", str "u", 3⟩]) []) :=
  ⟨(c6_resource_destination_paths defaultCtx [str "Course"] 4 (str "Mod") []
      [⟨str "file", str "a.pdf", str "u", 1⟩, ⟨str "file", str "b.pdf", str "u", 2⟩]).1
      [str "dest", str "Course", str "Mod", str "a.pdf"] (str "u") (by decide),
   (c6_resource_destination_paths defaultCtx [str "Course"] 4 (str "Mod") []
      [⟨str "file", str "c.pdf", str "u", 3⟩]).2
      ⟨str "file", str "c.pdf", str "u", 3⟩ (by decide) (by decide) (by decide)⟩

theorem do_download_spec (e : Option Nat) (g : Bool) (cl : Option Nat)
    (ch : List Nat) (fa : Option Nat) :
    ((do_download e g cl ch fa).outcome = .failed ∧
       (do_download e g cl ch fa).file = none) ∨
    ((do_download e g cl ch fa).outcome = .skipped ∧
       (do_download e g cl ch fa).file = e ∧
       (do_download e g cl ch fa).bytesRead = 0) ∨
    ((do_download e g cl ch fa).outcome = .completed ∧
       (do_download e g cl ch fa).file = some (ch.foldl (· + ·) 0)) := by
  unfold do_download
  split
  · exact Or.inl ⟨rfl, rfl⟩
  · cases fa with
    | some k =>
        by_cases he : e = some (cl.getD 0)
        · exact Or.inr (Or.inl (by simp [he]))
        · exact Or.inl (by simp [he])
    | none =>
        by_cases he : e = some (cl.getD 0)
        · exact Or.inr (Or.inl (by simp [he]))
        · exact Or.inr (Or.inr (by simp [he]))

/-- C7: a failed download leaves no file at the destination.  For every
configuration of pre-existing file, GET failure, declared length, body
chunks and mid-stream failure point: when the outcome is failed the
destination holds no file afterwards (the except clause unlinks it before
re-raising), and whenever a file is present afterwards the outcome was a
completed transfer or a skip on pre-existing size match. -/
theorem c7_failure_leaves_no_file (e : Option Nat) (g : Bool) (cl : Option Nat)
    (ch : List Nat) (fa : Option Nat) :
    ((do_download e g cl ch fa).outcome = .failed →
      (do_download e g cl ch fa).file = none) ∧
    ((do_download e g cl ch fa).file ≠ none →
      (do_download e g cl ch fa).outcome = .completed ∨
      (do_download e g cl ch fa).outcome = .skipped) := by
  rcases do_download_spec e g cl ch fa with ⟨h1, h2⟩ | ⟨h1, h2, -⟩ | ⟨h1, h2⟩
  · exact ⟨fun _ => h2, fun hf => absurd h2 hf⟩
  · constructor
    · intro h
      rw [h1] at h
      cases h
    · intro _
      exact Or.inr h1
  · constructor
    · intro h
      rw [h1] at h
      cases h
    · intro _
      exact Or.inl h1

/-- Witness for c7_failure_leaves_no_file: a failing GET leaves no file; a
run with a pre-existing size-matching file ends completed or skipped. -/
theorem c7_failure_leaves_no_file_witness :
    (do_download none true none [3] none).file = none ∧
    ((do_download (some 5) false (some 5) [] none).outcome = .completed ∨
     (do_download (some 5) false (some 5) [] none).outcome = .skipped) :=
  ⟨(c7_failure_leaves_no_file none true none [3] none).1 (by decide),
   (c7_failure_leaves_no_file (some 5) false (some 5) [] none).2 (by decide)⟩

/-- C8: the size-match skip.  When the GET succeeds and a file exists at
the destination whose size equals the declared content length (a missing
Content-Length header reads as 0), the transfer is skipped: zero body
bytes are read and the file is left unchanged.  In every other case — no
file, or a size mismatch — the body is streamed to the destination, and an
uninterrupted stream completes with the file holding all streamed bytes. -/
theorem c8_skip_on_size_match (sz : Nat) (cl : Option Nat) (ch : List Nat)
    (fa : Option Nat) :
    (sz = cl.getD 0 →
      do_download (some sz) false cl ch fa = ⟨.skipped, some sz, 0⟩) ∧
    (sz ≠ cl.getD 0 → fa = none →
      do_download (some sz) false cl ch fa =
        ⟨.completed, some (ch.foldl (· + ·) 0), ch.foldl (· + ·) 0⟩) ∧
    (fa = none →
      do_download none false cl ch fa =
        ⟨.completed, some (ch.foldl (· + ·) 0), ch.foldl (· + ·) 0⟩) := by
  refine ⟨?_, ?_, ?_⟩
  · intro h
    subst h
    unfold do_download
    cases fa <;> simp
  · intro h hfa
    subst hfa
    unfold do_download
    simp [h]
  · intro hfa
    subst hfa
    unfold do_download
    simp

/-- Witness for c8_skip_on_size_match: a matching size skips with zero
bytes read; mismatching or absent files stream the body to completion. -/
theorem c8_skip_on_size_match_witness :
    do_download (some 7) false (some 7) [1, 2] (some 1) = ⟨.skipped, some 7, 0⟩ ∧
    do_download (some 9) false (some 7) [1, 2] none = ⟨.completed, some 3, 3⟩ ∧
    do_download none false (some 7) [1, 2] none = ⟨.completed, some 3, 3⟩ :=
  ⟨(c8_skip_on_size_match 7 (some 7) [1, 2] (some 1)).1 (by decide),
   (c8_skip_on_size_match 9 (some 7) [1, 2] none).2.1 (by decide) rfl,
   (c8_skip_on_size_match 0 (some 7) [1, 2] none).2.2 rfl⟩

/-- C9 counterexample: with no username and password from either the
command line or the environment, main catches the KeyError, prints a
message and returns normally (cli.py lines 420 to 422), so the process
exits 0, not non-zero as the claim requires for this fatal error. -/
theorem c9_missing_credentials_exit_zero :
    mainExitCode none none none none false false = 0 ∧
    mainExitCode none none none none true true = 0 := by
  decide

/-- C9 (amended): a completed run exits 0, even when individual download
tasks failed (their exceptions stay inside the never-inspected async
results); a run-level exception after successful credential lookup makes
the process exit non-zero; but missing credentials print a message and
exit 0. -/
theorem c9_exit_codes (cliU envU cliP envP : Option PyStr) (tf : Bool) :
    (∀ rr : Bool, credOr cliU envU = .error () →
        mainExitCode cliU envU cliP envP rr tf = 0) ∧
    (∀ rr : Bool, credOr cliP envP = .error () →
        mainExitCode cliU envU cliP envP rr tf = 0) ∧
    (∀ uu pp : PyStr, credOr cliU envU = .ok uu → credOr cliP envP = .ok pp →
        mainExitCode cliU envU cliP envP false tf = 0 ∧
        mainExitCode cliU envU cliP envP true tf = 1) := by
  refine ⟨?_, ?_, ?_⟩
  · intro rr h
    simp [mainExitCode, h]
  · intro rr h
    cases hU : credOr cliU envU <;> simp [mainExitCode, hU, h]
  · intro uu pp hU hP
    constructor <;> simp [mainExitCode, hU, hP]

/-- Witness for c9_exit_codes: missing credentials exit 0; with both
credentials supplied, a clean run exits 0 even with failed tasks and a
run-level exception exits 1. -/
theorem c9_exit_codes_witness :
    mainExitCode none none none none true false = 0 ∧
    (mainExitCode (some (str "u")) none (some (str "p")) none false true = 0 ∧
     mainExitCode (some (str "u")) none (some (str "p")) none true true = 1) :=
  ⟨(c9_exit_codes none none none none false).1 true rfl,
   (c9_exit_codes (some (str "u")) none (some (str "p")) none true).2.2
      (str "u") (str "p") rfl rfl⟩

theorem replaceSubstr_of_not_contains (pat repl s : PyStr)
    (h : containsSubstr s pat = false) : replaceSubstr pat repl s = s := by
  induction s with
  | nil => rw [replaceSubstr]
  | cons c rest ih =>
      have hcons : containsSubstr (c :: rest) pat =
          (pat.isPrefixOf (c :: rest) || containsSubstr rest pat) := rfl
      rw [hcons, Bool.or_eq_false_iff] at h
      rw [replaceSubstr, if_neg (by simp [h.1]), ih h.2]

theorem containsSubstr_append (a b pat : PyStr) (hp : pat ≠ []) :
    containsSubstr (a ++ pat ++ b) pat = true := by
  induction a with
  | nil =>
      cases pat with
      | nil => exact absurd rfl hp
      | cons p pt =>
          simp only [List.nil_append, List.cons_append]
          have hcons : containsSubstr (p :: (pt ++ b)) (p :: pt) =
              ((p :: pt).isPrefixOf (p :: (pt ++ b)) ||
                containsSubstr (pt ++ b) (p :: pt)) := rfl
          rw [hcons]
          have hpre : (p :: pt).isPrefixOf (p :: (pt ++ b)) = true :=
            List.isPrefixOf_iff_prefix.mpr
              (List.prefix_append (p :: pt) b)
          rw [hpre, Bool.true_or]
  | cons x a2 ih =>
      simp only [List.cons_append]
      have hcons : containsSubstr (x :: (a2 ++ pat ++ b)) pat =
          (pat.isPrefixOf (x :: (a2 ++ pat ++ b)) ||
            containsSubstr (a2 ++ pat ++ b) pat) := rfl
      rw [hcons]
      have := ih
      simp only [List.cons_append] at this
      rw [this, Bool.or_true]

theorem replaceSubstr_append_head (pat repl b : PyStr) (hp : pat ≠ [])
    (hb : containsSubstr b pat = false) :
    replaceSubstr pat repl (pat ++ b) = repl ++ b := by
  cases pat with
  | nil => exact absurd rfl hp
  | cons p pt =>
      have hpre : (p :: pt).isPrefixOf (p :: (pt ++ b)) = true :=
        List.isPrefixOf_iff_prefix.mpr
          (List.prefix_append (p :: pt) b)
      rw [List.cons_append, replaceSubstr, if_pos ⟨hpre, by simp⟩]
      have hdrop : (pt ++ b).drop ((p :: pt).length - 1) = b := by
        rw [show (p :: pt).length - 1 = pt.length from by simp, List.drop_left]
      rw [hdrop, replaceSubstr_of_not_contains _ repl b hb]


theorem replaceSubstr_decomp (pat repl a b : PyStr) (hp : pat ≠ [])
    (ha : ∀ i, i < a.length → pat.isPrefixOf ((a ++ pat ++ b).drop i) = false)
    (hb : containsSubstr b pat = false) :
    replaceSubstr pat repl (a ++ pat ++ b) = a ++ repl ++ b := by
  induction a with
  | nil => simpa using replaceSubstr_append_head pat repl b hp hb
  | cons x a2 ih =>
      have h0 : pat.isPrefixOf (x :: (a2 ++ pat ++ b)) = false := by
        have := ha 0 (by simp)
        simpa using this
      simp only [List.cons_append]
      rw [replaceSubstr, if_neg ?hcond]
      case hcond =>
        rintro ⟨h1, -⟩
        rw [h0] at h1
        exact Bool.false_ne_true h1
      have ha2 : ∀ i, i < a2.length →
          pat.isPrefixOf ((a2 ++ pat ++ b).drop i) = false := by
        intro i hi
        have := ha (i + 1) (by simpa using Nat.succ_lt_succ hi)
        simpa using this
      have := ih ha2
      simp only [List.cons_append] at this
      rw [this]

/-- C10: the download-URL fixup.  It is the identity on every URL that
does not contain the webservice pluginfile fragment.  For every URL that
does, written around its leftmost occurrence as a ++ fragment ++ b (no
occurrence of the fragment starts before position a.length, and none
occurs in b), the fragment is replaced by "/tokenpluginfile.php/"
followed by the private access key and "&offline=1" is appended to the
result. -/
theorem c10_fix_download_plugin_url_spec (key : PyStr) :
    (∀ url : PyStr, containsSubstr url plugin_pattern = false →
        fix_download_plugin_url key url = url) ∧
    (∀ a b : PyStr,
        (∀ i, i < a.length →
          plugin_pattern.isPrefixOf ((a ++ plugin_pattern ++ b).drop i) = false) →
        containsSubstr b plugin_pattern = false →
        fix_download_plugin_url key (a ++ plugin_pattern ++ b) =
          a ++ (str "/tokenpluginfile.php/" ++ key) ++ b ++ str "&offline=1") := by
  constructor
  · intro url h
    simp [fix_download_plugin_url, h]
  · intro a b ha hb
    have hc := containsSubstr_append a b plugin_pattern (by decide)
    rw [fix_download_plugin_url, if_neg ?hfalse]
    case hfalse =>
      intro hcond
      rw [hc] at hcond
      exact Bool.false_ne_true hcond.symm
    rw [replaceSubstr_decomp plugin_pattern _ a b (by decide) ha hb]

/-- Witness for c10_fix_download_plugin_url_spec at realistic absolute
URLs: a CDN URL without the fragment passes through unchanged; a full
webservice pluginfile URL is rewritten to the token form with the offline
marker appended. -/
theorem c10_fix_download_plugin_url_witness :
    fix_download_plugin_url (str "KEY")
        (str "https://host/mod_resource/content/1/a.pdf") =
      str "https://host/mod_resource/content/1/a.pdf" ∧
    fix_download_plugin_url (str "KEY")
        (str "https://elearning.unimib.it" ++ plugin_pattern ++
          str "?forcedownload=1") =
      str "https://elearning.unimib.it" ++
        (str "/tokenpluginfile.php/" ++ str "KEY") ++ str "?forcedownload=1" ++
        str "&offline=1" :=
  ⟨(c10_fix_download_plugin_url_spec (str "KEY")).1
      (str "https://host/mod_resource/content/1/a.pdf") (by decide),
   (c10_fix_download_plugin_url_spec (str "KEY")).2
      (str "https://elearning.unimib.it") (str "?forcedownload=1")
      (by decide) (by decide)⟩
